import Mathlib

/-!
Shallow embedding of `src/ShotLoader_v1.py` (Pegasus III shot loader).

Conventions of the embedding:
* Machine floats are modelled as `Option ℚ` (`PVal`): `some q` is a finite
  float value, `none` is a non-finite float (NaN or ±infinity).  numpy
  arithmetic on non-finite values propagates non-finiteness, which `none`
  propagation mirrors; a division by zero produces a non-finite value
  (`inf` or `NaN`), never an exception, exactly as in numpy.
* Python exceptions are modelled with `Except PyErr`; an uncaught
  exception propagates outward, a `try/except TypeError` block is an
  explicit `match` on the `typeError` case.
* numpy arrays and Python lists become `List`; the in-place mutating loop
  of `CleanUp` becomes a fold over `List.set`.
-/

namespace ShotLoader

/-- Model of a machine float: `some q` is a finite value, `none` a
non-finite one (NaN or ±inf). -/
abbrev PVal := Option ℚ

/-- Float addition: finite + finite is exact, anything non-finite
propagates (NaN/inf absorb). -/
def padd : PVal → PVal → PVal
  | some a, some b => some (a + b)
  | _, _ => none

/-- Float subtraction with non-finite propagation. -/
def psub : PVal → PVal → PVal
  | some a, some b => some (a - b)
  | _, _ => none

/-- Float multiplication with non-finite propagation (`inf * 0 = NaN`,
so `none` absorbs even against zero, as in IEEE). -/
def pmul : PVal → PVal → PVal
  | some a, some b => some (a * b)
  | _, _ => none

/-- Float division: division by zero yields a non-finite value
(±inf or NaN), modelled as `none`; non-finite operands propagate. -/
def pdiv : PVal → PVal → PVal
  | some a, some b => if b = 0 then none else some (a / b)
  | _, _ => none

/-- Python exceptions that the shot loader can raise. -/
inductive PyErr where
  | typeError : PyErr
  | indexError : PyErr
  | valueError : PyErr
  | keyError (k : String) : PyErr
deriving DecidableEq

/-- A raw signal as produced by `IgorLoad`: either the file-not-found
sentinel `{'deltaX': [], 'data': []}` (two empty Python lists), or a
loaded wave `{'deltaX': dx, 'data': samples}` (a float and a numpy
array of finite floats). -/
inductive RawSig where
  | sentinel : RawSig
  | wave (deltaX : ℚ) (data : List ℚ) : RawSig
deriving DecidableEq

/-- A calibrated channel: the `'data'` array and the `'time'` array. -/
abbrev CalChan := List PVal × List ℚ

/-! ### CleanUp (SignalConditioner) -/

/-- Model of `sigTime = dx * np.arange(npts)`. -/
def sigTimeOf (dx : ℚ) (npts : ℕ) : List ℚ :=
  (List.range npts).map (fun i : ℕ => dx * (i : ℚ))

/-- Model of `np.mean(sig[dRange])` where
`dRange = np.flatnonzero((sigTime > 0.0) & (sigTime < 0.001))`:
the mean of the samples whose time lies strictly between `0` and
`0.001`.  `np.mean` of an empty selection is NaN (`none`). -/
def baselineMean (sig : List ℚ) (sigTime : List ℚ) : PVal :=
  let sel := (sig.zip sigTime).filter (fun p => decide (0 < p.2 ∧ p.2 < 1/1000))
  if sel.isEmpty then none
  else some ((sel.map (fun p => p.1)).sum / (sel.length : ℚ))

/-- Model of `offSig = sig - np.mean(sig[dRange])` (elementwise). -/
def offsetSig (sig : List ℚ) (sigTime : List ℚ) : List PVal :=
  let m := baselineMean sig sigTime
  sig.map (fun y => psub (some y) m)

/-- Model of `scipy.integrate.cumtrapz(y, x=sigTime, initial=0)`:
`[0] ++` running sums of `(x[i+1]-x[i]) * (y[i+1]+y[i]) / 2`. -/
def cumtrapz (y : List PVal) (x : List ℚ) : List PVal :=
  let incs := ((x.zip y).zip ((x.drop 1).zip (y.drop 1))).map
    (fun p => pdiv (pmul (some (p.2.1 - p.1.1)) (padd p.2.2 p.1.2)) (some 2))
  incs.scanl padd (some 0)

/-- The straight-line term
`(offSig[-1] - offSig[0]) * sigTime[i] / (sigTime[-1] - sigTime[0])`
subtracted by the drift-removal loop, reading the endpoints of the
(current) array `arr`.  Python's negative index `-1` is the last
element; the loop body only runs on nonempty arrays, so the `getD`
defaults are never exercised there. -/
def lineTerm (t : List ℚ) (arr : List PVal) (i : ℕ) : PVal :=
  pdiv (pmul (psub (arr.getD (arr.length - 1) none) (arr.getD 0 none))
             (some (t.getD i 0)))
       (some (t.getD (t.length - 1) 0 - t.getD 0 0))

/-- Model of the in-place drift-removal loop

    cleanSig = offSig
    for i in range(0, len(offSig)):
        cleanSig[i] -= (offSig[-1] - offSig[0]) * sigTime[i] / (sigTime[-1] - sigTime[0])

`cleanSig` and `offSig` are the same numpy array, so each iteration
reads the endpoints of the array as mutated so far. -/
def driftLoop (t : List ℚ) (arr : List PVal) : List PVal :=
  (List.range arr.length).foldl
    (fun acc i => acc.set i (psub (acc.getD i none) (lineTerm t acc i))) arr

/-- Model of `CleanUp(signal, intFlag)`.

* On the file-not-found sentinel, `sig` is the Python list `[]` and
  `dRange` a numpy index array, so `sig[dRange]` raises `TypeError`
  ("only integer scalar arrays can be converted to a scalar index").
* On a loaded wave the baseline mean, optional `cumtrapz` integration
  and the drift loop run with numpy semantics (no exceptions; NaN/inf
  garbage propagates as `none`).
* The one exception: for an empty wave with `intFlag` set,
  `cumtrapz(..., initial=0)` returns the one-element array `[0.]`
  while `sigTime` is empty, so `sigTime[0]` in the loop raises
  `IndexError`. -/
def CleanUp (signal : RawSig) (intFlag : Bool) : Except PyErr (List PVal × List ℚ) :=
  match signal with
  | .sentinel => .error .typeError
  | .wave dx data =>
    let sigTime := sigTimeOf dx data.length
    let offSig := offsetSig data sigTime
    if intFlag then
      if data.isEmpty then .error .indexError
      else .ok (driftLoop sigTime (cumtrapz offSig sigTime), sigTime)
    else .ok (driftLoop sigTime offSig, sigTime)

/-! ### Channel enumerations (`ShotData.__init__`) -/

/-- The `FluxLoops` list, exactly as written in `ShotData.__init__`
(including the repeated `CFL04`/`CFL05` entries). -/
def FluxLoops : List String :=
  ["CFL01", "CFL02", "CFL03", "CFL04", "CFL05",
   "CFL06", "CFL07", "CFL08", "CFL09", "CFL10",
   "CFL11", "CFL12", "CFL13", "CFL04", "CFL05",
   "CTor1", "CTor2", "CTor3", "CTor4", "CTor5",
   "CTor6", "DiamagA", "DiamagB", "DiamagC",
   "NCFL01", "NCFL02", "NCFL03", "NCFL04",
   "NCFL05", "NCFL06", "NCFL07", "NCFL08",
   "NCFL09", "NCFL10", "NCFL11", "NCFL12",
   "NCFL13", "NCFL14", "NCFL15", "NCFL16",
   "NCFL17", "NCFL18", "NCFL19", "NCFL20",
   "WFL01", "WFL02", "WFL03", "WFL04", "WFL05", "WFL06",
   "WFL07", "WFL08", "WFL09", "WFL10", "WFL11", "WFL12",
   "WFL13", "WFL14", "WFL15", "WFL16"]

/-- The `BDots` list from `ShotData.__init__`. -/
def BDots : List String :=
  ["PDX01", "PDX02", "PDX03", "PDX04", "PDX05", "PDX06",
   "PDX07", "PDX08", "PDX09", "PDX10", "PDX11", "PDX12",
   "PDX13", "OTor1", "OTor2", "OTor3", "OTor4", "OTor5",
   "OTor6", "CTor1", "CTor2", "CTor3", "CTor4", "CTor5",
   "CTor6", "CPA01", "CPA02", "CPA03", "CPA04", "CPA05",
   "CPA06", "CPA07", "CPA08", "CPA09", "CPA10", "CPA11",
   "CPA12", "CPA13", "CPA14", "CPA15", "CPA16", "CPA17",
   "CPA18", "CPA19", "CPA20", "CPA21"]

/-- The `Currents` list from `ShotData.__init__`. -/
def Currents : List String :=
  ["PlasmaRogA", "PlasmaRogB", "RT_DPWMi_EF123",
   "RT_DPWMi_EF45", "RT_DPWMi_EF678", "RT_DPWMi_TF"]

/-! ### BdotNA (GeometricFactorTable) -/

/-- The hardcoded `BdotDict` of `BdotNA()`: 1/NA per B-dot probe name. -/
def BdotDict : List (String × ℚ) :=
  [("PDX01", 31.40986856), ("PDX02", 30.61780031),
   ("PDX03", 30.83447292), ("PDX04", 30.18429813),
   ("PDX05", 29.80654102), ("PDX06", 31.5045286),
   ("PDX07", 29.94459065), ("PDX08", 30.03320686),
   ("PDX09", 30.94971522), ("PDX10", 31.56406303),
   ("PDX11", 30.99254654), ("PDX12", 29.48266806),
   ("PDX13", 31.41396525), ("OTor1", 51.43020212),
   ("OTor2", 53.77402821), ("OTor3", 53.68001112),
   ("OTor4", 50.42248514), ("OTor5", 52.05609586),
   ("OTor6", 51.94900848), ("CTor1", 176.3906218),
   ("CTor2", 202.8254814), ("CTor3", 183.3700253),
   ("CTor4", 185.2652264), ("CTor5", 187.4727088),
   ("CTor6", 214.1072423),
   ("CPA01", 179.71749), ("CPA02", 198.80251),
   ("CPA03", 197.43882), ("CPA04", 185.42609),
   ("CPA05", 186.73373), ("CPA06", 190.3981965),
   ("CPA07", 192.9140393), ("CPA08", 198.2726724),
   ("CPA09", 182.9567595), ("CPA10", 193.7743813),
   ("CPA11", 196.2893948), ("CPA12", 185.3693143),
   ("CPA13", 191.0163613), ("CPA14", 192.7280717),
   ("CPA15", 172.6144269), ("CPA16", 171.9967657),
   ("CPA17", 182.0353776), ("CPA18", 209.1828164),
   ("CPA19", 182.0272987), ("CPA20", 184.948528),
   ("CPA21", 174.5560926)]

/-- Dictionary lookup in the `BdotNA` table; `none` corresponds to a
Python `KeyError` on `BdotDict[sig]`. -/
def BdotNA (sig : String) : Option ℚ :=
  BdotDict.lookup sig

/-! ### IgorLoad and the per-group processors -/

/-- Model of `IgorLoad`: the external file system is a partial map from
channel name to wave content.  A present file yields the wave; an
absent one raises `FileNotFoundError`, which `IgorLoad` catches,
returning the `{'deltaX': [], 'data': []}` sentinel. -/
def IgorLoad (file : Option (ℚ × List ℚ)) : RawSig :=
  match file with
  | some (dx, w) => .wave dx w
  | none => .sentinel

/-- The loaded calibration dictionary `self.calFile`, abstractly: a map
from channel name to `(scale factor, unit)`; `none` models a missing
key (a Python `KeyError` on subscript). -/
abbrev CalDict := String → Option (ℚ × String)

/-- One iteration of the `ProcFL` loop body:

    try:
        cleanSig, cleanSigTime = CleanUp(rawSig, intFlag=True)
        calSig = float(self.calFile[sig][0]) * cleanSig
    except TypeError:
        calSig = []; cleanSigTime = []

Only `TypeError` is caught (it arises inside `CleanUp` on the missing
raw-data sentinel); a `KeyError` from `self.calFile[sig]` is not. -/
def ProcFLchan (calFile : CalDict) (sig : String) (raw : RawSig) :
    Except PyErr CalChan :=
  match CleanUp raw true with
  | .ok (cleanSig, cleanSigTime) =>
    match calFile sig with
    | some entry => .ok (cleanSig.map (fun y => pmul (some entry.1) y), cleanSigTime)
    | none => .error (.keyError sig)
  | .error .typeError => .ok ([], [])
  | .error e => .error e

/-- The `ProcFL` loop over the flux-loop channels: an uncaught exception
in one iteration aborts the loop (no later sibling is processed). -/
def ProcGroupFL (calFile : CalDict) :
    List (String × RawSig) → Except PyErr (List (String × CalChan))
  | [] => .ok []
  | (sig, raw) :: rest =>
    match ProcFLchan calFile sig raw with
    | .error e => .error e
    | .ok r =>
      match ProcGroupFL calFile rest with
      | .error e => .error e
      | .ok rs => .ok ((sig, r) :: rs)

/-- One iteration of the `ProcBdot` loop body:

    try:
        cleanSig, cleanSigTime = CleanUp(rawSig, intFlag=True)
        calSig = OneOverNA[sig] * float(self.calFile[sig][0]) * cleanSig
    except TypeError:
        calSig = []; cleanSigTime = []

`OneOverNA[sig]` is looked up first, then `self.calFile[sig]`; a
`KeyError` from either subscript is not caught. -/
def ProcBdotChan (calFile : CalDict) (sig : String) (raw : RawSig) :
    Except PyErr CalChan :=
  match CleanUp raw true with
  | .ok (cleanSig, cleanSigTime) =>
    match BdotNA sig with
    | some na =>
      match calFile sig with
      | some entry =>
        .ok (cleanSig.map (fun y => pmul (some (na * entry.1)) y), cleanSigTime)
      | none => .error (.keyError sig)
    | none => .error (.keyError sig)
  | .error .typeError => .ok ([], [])
  | .error e => .error e

/-- The `ProcBdot` loop over the B-dot channels. -/
def ProcGroupBdot (calFile : CalDict) :
    List (String × RawSig) → Except PyErr (List (String × CalChan))
  | [] => .ok []
  | (sig, raw) :: rest =>
    match ProcBdotChan calFile sig raw with
    | .error e => .error e
    | .ok r =>
      match ProcGroupBdot calFile rest with
      | .error e => .error e
      | .ok rs => .ok ((sig, r) :: rs)

/-- Model of `CalcIp`: conditions the raw `PlasmaRogB` signal with
integration and scales it by its calibration factor.  Unlike `ProcFL`
and `ProcBdot`, there is no `try/except` here — every exception
escapes. -/
def CalcIp (calFile : CalDict) (plasRogRaw : RawSig) : Except PyErr CalChan :=
  match CleanUp plasRogRaw true with
  | .error e => .error e
  | .ok (cleanSig, cleanSigTime) =>
    match calFile "PlasmaRogB" with
    | none => .error (.keyError "PlasmaRogB")
    | some entry => .ok (cleanSig.map (fun y => pmul (some entry.1) y), cleanSigTime)

/-- The per-shot processing sequence of `main` after the raw load:
`CalcIp`, then `ProcFL`, then `ProcBdot`.  The raw signals are obtained
per channel through `IgorLoad` over the external file map.  An uncaught
exception in any stage aborts the whole shot. -/
def mainPipeline (files : String → Option (ℚ × List ℚ)) (calFile : CalDict) :
    Except PyErr (CalChan × List (String × CalChan) × List (String × CalChan)) :=
  match CalcIp calFile (IgorLoad (files "PlasmaRogB")) with
  | .error e => .error e
  | .ok ip =>
    match ProcGroupFL calFile (FluxLoops.map (fun s => (s, IgorLoad (files s)))) with
    | .error e => .error e
    | .ok fl =>
      match ProcGroupBdot calFile (BDots.map (fun s => (s, IgorLoad (files s)))) with
      | .error e => .error e
      | .ok bd => .ok (ip, fl, bd)

/-! ### getFolderPath -/

/-- Model of the Python slice `s[:n]`. -/
def pytake (s : String) (n : ℕ) : String := String.mk (s.toList.take n)

/-- Model of the Python slice `s[n:]`. -/
def pydrop (s : String) (n : ℕ) : String := String.mk (s.toList.drop n)

/-- The zero-padding block of `getFolderPath`:

    if len(str(shotnum)) == 4:   shotstr = '00' + str(shotnum)
    elif len(str(shotnum)) == 5: shotstr = '0' + str(shotnum)
    else:                        shotstr = str(shotnum)
-/
def shotStr (shotnum : ℕ) : String :=
  if (toString shotnum).length = 4 then "00" ++ toString shotnum
  else if (toString shotnum).length = 5 then "0" ++ toString shotnum
  else toString shotnum

/-- Model of `f1Str = shotstr[:2] + '0000'`. -/
def f1Str (shotnum : ℕ) : String := pytake (shotStr shotnum) 2 ++ "0000"

/-- Model of `f2Str = shotstr[2:4] + '00'`. -/
def f2Str (shotnum : ℕ) : String := pytake (pydrop (shotStr shotnum) 2) 2 ++ "00"

/-- Model of `fName = 'T' + shotstr`. -/
def fName (shotnum : ℕ) : String := "T" ++ shotStr shotnum

/-! ### LoadCalData (CalibrationStore) -/

/-- Helper realising Python extended slices `l[s::7]` after the start
offset has been dropped: keep the head, then skip `step - 1` elements,
and so on.  `k` counts how many elements remain to be skipped. -/
def strideAux (step : ℕ) : ℕ → List String → List String
  | _, [] => []
  | 0, x :: xs => x :: strideAux step (step - 1) xs
  | k + 1, _ :: xs => strideAux step k xs

/-- Model of the Python slice `l[0::step]`. -/
def takeStride (step : ℕ) (l : List String) : List String :=
  strideAux step 0 l

/-- Model of Python `str.strip(chars)`: removes any leading and trailing
characters belonging to `chars`. -/
def pystrip (chars : String) (s : String) : String :=
  let l := s.toList.dropWhile (fun c => chars.toList.contains c)
  String.mk ((l.reverse.dropWhile (fun c => chars.toList.contains c)).reverse)

/-- Accumulator-style splitter behind `pysplit`. -/
def pysplitAux (cur : List Char) : List Char → List String
  | [] => if cur.isEmpty then [] else [String.mk cur.reverse]
  | c :: cs =>
    if c.isWhitespace then
      if cur.isEmpty then pysplitAux [] cs
      else String.mk cur.reverse :: pysplitAux [] cs
    else pysplitAux (c :: cur) cs

/-- Model of Python `str.split()` with no argument: split on runs of
whitespace, discarding empty fields. -/
def pysplit (s : String) : List String :=
  pysplitAux [] s.toList

/-- Value of a digit string as a natural number (for `pyfloat`). -/
def digitsVal (cs : List Char) : ℕ :=
  cs.foldl (fun acc c => acc * 10 + (c.toNat - 48)) 0

/-- Model of Python `float(s)` on plain decimal literals
`[sign] digits [. digits]` (the only shape occurring in calibration
files); anything else is a `ValueError`, modelled as `none`. -/
def pyfloat (s : String) : Option ℚ :=
  let cs := s.toList
  let signed : ℚ × List Char :=
    match cs with
    | '-' :: r => (-1, r)
    | '+' :: r => (1, r)
    | r => (1, r)
  let intPart := signed.2.takeWhile Char.isDigit
  let rest := signed.2.dropWhile Char.isDigit
  match rest with
  | [] =>
    if intPart.isEmpty then none
    else some (signed.1 * (digitsVal intPart : ℚ))
  | '.' :: frac =>
    if frac.all Char.isDigit then
      if intPart.isEmpty ∧ frac.isEmpty then none
      else some (signed.1 *
        ((digitsVal intPart : ℚ) + (digitsVal frac : ℚ) / (10 : ℚ) ^ frac.length))
    else none
  | _ => none

/-- Model of `line.split()[-1]`: the last whitespace-separated token;
`[-1]` on an empty list raises `IndexError`. -/
def lastTok (s : String) : Except PyErr String :=
  match (pysplit s).getLast? with
  | none => .error .indexError
  | some w => .ok w

/-- The `for i in range(len(DiagNames))` loop of `LoadCalData`.  For
each record: the key is `DiagNames[i].strip('[]\n')`; the value is
`[float(CalVals[i].split()[-1]), CalUnits[i].split()[-1]]`.  Indexing
`CalVals[i]` (or `CalUnits[i]`) past its length raises `IndexError`,
and a non-numeric value token raises `ValueError` in `float`. -/
def LoadCalLoop : List String → List String → List String →
    Except PyErr (List (String × ℚ × String))
  | [], _, _ => .ok []
  | _ :: _, [], _ => .error .indexError
  | _ :: _, _ :: _, [] => .error .indexError
  | n :: ns, v :: vs, u :: us =>
    match lastTok v with
    | .error e => .error e
    | .ok vTok =>
      match pyfloat vTok with
      | none => .error .valueError
      | some val =>
        match lastTok u with
        | .error e => .error e
        | .ok uTok =>
          match LoadCalLoop ns vs us with
          | .error e => .error e
          | .ok rest => .ok ((pystrip "[]\n" n, val, uTok) :: rest)

/-- Model of `LoadCalData` on the list of lines of `DAS.conf` (each
line still carrying its trailing newline, as from `readlines()`):

    DiagLines = f.readlines()[64:]
    DiagNames = DiagLines[0::7]
    CalVals   = DiagLines[4::7]
    CalUnits  = DiagLines[3::7]

The resulting association list holds the records in file order. -/
def LoadCalData (lines : List String) : Except PyErr (List (String × ℚ × String)) :=
  let diagLines := lines.drop 64
  LoadCalLoop (takeStride 7 diagLines)
    (takeStride 7 (diagLines.drop 4))
    (takeStride 7 (diagLines.drop 3))

/-! ### Reference definitions and test fixtures -/

/-- The non-aliasing reading of the drift-removal loop:
`cleaned[i] = offset[i] - (offset[-1] - offset[0]) * time[i] / (time[-1] - time[0])`
with the endpoint values `offset[0]`, `offset[-1]` fixed to their values
before the loop starts (they are read from the unmodified `arr`). -/
def driftMapSpec (t : List ℚ) (arr : List PVal) : List PVal :=
  (List.range arr.length).map (fun i => psub (arr.getD i none) (lineTerm t arr i))

/-- A raw signal carrying an exact linear drift: the base signal plus
`m*t + c`, sampled on the uniform time base `t[i] = dx * i`. -/
def driftInput (base : List ℚ) (m c dx : ℚ) : List PVal :=
  (List.range base.length).map
    (fun i : ℕ => some (base.getD i 0 + (m * (dx * (i : ℚ)) + c)))

/-- The crafted calibration file of claim C4: the 64-line header
followed by the single 7-line block
`["[CFL01]", x, x, "V 3.14", "scale 2.5", x, x]`
(each line carrying its newline, as `readlines()` yields them). -/
def calTestLines : List String :=
  List.replicate 64 "header\n" ++
  ["[CFL01]\n", "x\n", "x\n", "V 3.14\n", "scale 2.5\n", "x\n", "x\n"]

deriving instance DecidableEq for Except

/-! ### Arithmetic facts about the float model -/

@[simp] theorem psub_some_some (a b : ℚ) : psub (some a) (some b) = some (a - b) := rfl

@[simp] theorem psub_none_left (x : PVal) : psub none x = none := by cases x <;> rfl

@[simp] theorem psub_none_right (x : PVal) : psub x none = none := by cases x <;> rfl

@[simp] theorem pmul_some_some (a b : ℚ) : pmul (some a) (some b) = some (a * b) := rfl

@[simp] theorem pmul_none_left (x : PVal) : pmul none x = none := by cases x <;> rfl

@[simp] theorem pmul_none_right (x : PVal) : pmul x none = none := by cases x <;> rfl

@[simp] theorem pdiv_some_some (a b : ℚ) :
    pdiv (some a) (some b) = if b = 0 then none else some (a / b) := rfl

@[simp] theorem pdiv_none_left (x : PVal) : pdiv none x = none := by cases x <;> rfl

/-! ### List index helpers -/

theorem getD_eq_getElem {α : Type} (l : List α) (i : ℕ) (d : α) (h : i < l.length) :
    l.getD i d = l[i] := by
  simp [List.getD_eq_getElem?_getD, List.getElem?_eq_getElem h]

theorem getD_set_self {α : Type} (l : List α) (i : ℕ) (v d : α) (h : i < l.length) :
    (l.set i v).getD i d = v := by
  simp [List.getD_eq_getElem?_getD, List.getElem?_set_self h]

theorem getD_set_ne {α : Type} (l : List α) (i j : ℕ) (v d : α) (h : i ≠ j) :
    (l.set i v).getD j d = l.getD j d := by
  simp [List.getD_eq_getElem?_getD, List.getElem?_set_ne h]

/-! ### Facts about sigTimeOf -/

theorem length_sigTimeOf (dx : ℚ) (n : ℕ) : (sigTimeOf dx n).length = n := by
  rw [sigTimeOf, List.length_map, List.length_range]

theorem sigTimeOf_getD (dx : ℚ) (n i : ℕ) (h : i < n) :
    (sigTimeOf dx n).getD i 0 = dx * (i : ℚ) := by
  rw [sigTimeOf, List.getD_eq_getElem?_getD, List.getElem?_map, List.getElem?_range h]
  rfl

theorem sigTimeOf_head (dx : ℚ) (n : ℕ) (hn : 0 < n) : (sigTimeOf dx n).getD 0 0 = 0 := by
  rw [sigTimeOf_getD dx n 0 hn]; simp

theorem sigTimeOf_den_ne (dx : ℚ) (n : ℕ) (hn : 2 ≤ n) (hdx : 0 < dx) :
    (sigTimeOf dx n).getD ((sigTimeOf dx n).length - 1) 0 - (sigTimeOf dx n).getD 0 0 ≠ 0 := by
  rw [length_sigTimeOf, sigTimeOf_getD dx n (n - 1) (by omega), sigTimeOf_head dx n (by omega)]
  have h1 : (1 : ℚ) ≤ ((n - 1 : ℕ) : ℚ) := by
    exact_mod_cast Nat.one_le_iff_ne_zero.mpr (by omega)
  have h2 : 0 < dx * ((n - 1 : ℕ) : ℚ) := mul_pos hdx (lt_of_lt_of_le one_pos h1)
  rw [sub_zero]
  exact ne_of_gt h2

/-! ### The non-aliasing drift-removal reference -/

theorem length_driftMapSpec (t : List ℚ) (arr : List PVal) :
    (driftMapSpec t arr).length = arr.length := by
  simp [driftMapSpec]

theorem driftMapSpec_getD (t : List ℚ) (arr : List PVal) (i : ℕ) (h : i < arr.length) :
    (driftMapSpec t arr).getD i none = psub (arr.getD i none) (lineTerm t arr i) := by
  simp [driftMapSpec, List.getD_eq_getElem?_getD, List.getElem?_range h]

/-- Value written by one loop iteration, compared with the non-aliasing
reference: as long as the current array still holds the original last
element, and its head is either the original head or the already
rewritten head, the iteration at `k` produces the reference value. -/
theorem step_value (t : List ℚ) (arr acc : List PVal) (k : ℕ)
    (h0 : t.getD 0 0 = 0)
    (hden : t.getD (t.length - 1) 0 - t.getD 0 0 ≠ 0)
    (hk : k < arr.length)
    (hkval : acc.getD k none = arr.getD k none)
    (hlast : acc.getD (acc.length - 1) none = arr.getD (arr.length - 1) none)
    (hhead : acc.getD 0 none = arr.getD 0 none ∨
             acc.getD 0 none = (driftMapSpec t arr).getD 0 none) :
    psub (acc.getD k none) (lineTerm t acc k) = (driftMapSpec t arr).getD k none := by
  have h0n : 0 < arr.length := lt_of_le_of_lt (Nat.zero_le k) hk
  rw [driftMapSpec_getD t arr k hk, hkval]
  cases hb : arr.getD (arr.length - 1) none with
  | none =>
    have hlt_arr : lineTerm t arr k = none := by
      unfold lineTerm; rw [hb]; simp
    have hlt_acc : lineTerm t acc k = none := by
      unfold lineTerm; rw [hlast, hb]; simp
    rw [hlt_arr, hlt_acc]
  | some y =>
    cases ha : arr.getD 0 none with
    | none =>
      have hlt_arr : lineTerm t arr k = none := by
        unfold lineTerm; rw [hb, ha]; simp
      have hlt_acc : lineTerm t acc k = none := by
        rcases hhead with h | h
        · unfold lineTerm; rw [hlast, hb, h, ha]; simp
        · have hspec0 : (driftMapSpec t arr).getD 0 none = none := by
            rw [driftMapSpec_getD t arr 0 h0n]
            unfold lineTerm; rw [ha, hb]; simp
          unfold lineTerm; rw [hlast, hb, h, hspec0]; simp
      rw [hlt_arr, hlt_acc]
    | some x =>
      have hspec0 : (driftMapSpec t arr).getD 0 none = some x := by
        rw [driftMapSpec_getD t arr 0 h0n, ha]
        unfold lineTerm
        rw [ha, hb]
        set D := t.getD (t.length - 1) 0 - t.getD 0 0 with hD
        rw [h0]
        simp only [psub_some_some, pmul_some_some, mul_zero, pdiv_some_some]
        rw [if_neg hden]
        simp
      have hhead' : acc.getD 0 none = arr.getD 0 none := by
        rcases hhead with h | h
        · exact h
        · rw [h, hspec0, ha]
      have hcongr : lineTerm t acc k = lineTerm t arr k := by
        unfold lineTerm; rw [hlast, hhead']
      rw [hcongr]

/-- Invariant of the in-place loop: positions below `k` already hold the
reference values, positions from `k` on still hold the original ones;
folding the loop body over the remaining indices yields the reference. -/
theorem driftLoop_invariant (t : List ℚ) (arr : List PVal)
    (h0 : t.getD 0 0 = 0)
    (hden : t.getD (t.length - 1) 0 - t.getD 0 0 ≠ 0) :
    ∀ (m k : ℕ) (acc : List PVal), k + m = arr.length → acc.length = arr.length →
      (∀ j, j < k → acc.getD j none = (driftMapSpec t arr).getD j none) →
      (∀ j, k ≤ j → acc.getD j none = arr.getD j none) →
      List.foldl (fun a i => a.set i (psub (a.getD i none) (lineTerm t a i))) acc
        (List.range' k m) = driftMapSpec t arr := by
  intro m
  induction m with
  | zero =>
    intro k acc hkm hlen h1 h2
    simp only [List.range'_zero, List.foldl_nil]
    apply List.ext_getElem (by rw [hlen, length_driftMapSpec])
    intro i hi1 hi2
    have hik : i < k := by omega
    have := h1 i hik
    rwa [getD_eq_getElem acc i none hi1,
         getD_eq_getElem (driftMapSpec t arr) i none hi2] at this
  | succ m ih =>
    intro k acc hkm hlen h1 h2
    have hk : k < arr.length := by omega
    rw [List.range'_succ, List.foldl_cons]
    apply ih (k + 1) _ (by omega) (by rw [List.length_set]; exact hlen)
    · intro j hj
      rcases Nat.lt_or_ge j k with hjk | hjk
      · rw [getD_set_ne acc k j _ none (by omega)]
        exact h1 j hjk
      · have hjek : j = k := by omega
        subst hjek
        rw [getD_set_self acc j _ none (by omega)]
        apply step_value t arr acc j h0 hden hk (h2 j le_rfl)
        · rw [hlen]
          exact h2 (arr.length - 1) (by omega)
        · rcases Nat.eq_zero_or_pos j with hj0 | hjpos
          · subst hj0
            exact Or.inl (h2 0 le_rfl)
          · exact Or.inr (h1 0 hjpos)
    · intro j hj
      rw [getD_set_ne acc k j _ none (by omega)]
      exact h2 j (by omega)

/-- The in-place drift-removal loop computes exactly the non-aliasing
reference, whenever the time axis starts at 0 and has nonzero span. -/
theorem driftLoop_eq_driftMapSpec (t : List ℚ) (arr : List PVal)
    (h0 : t.getD 0 0 = 0)
    (hden : t.getD (t.length - 1) 0 - t.getD 0 0 ≠ 0) :
    driftLoop t arr = driftMapSpec t arr := by
  unfold driftLoop
  rw [List.range_eq_range']
  exact driftLoop_invariant t arr h0 hden arr.length 0 arr (by omega) rfl
    (fun j hj => absurd hj (Nat.not_lt_zero j)) (fun j _ => rfl)

/-- Endpoint values of the drift-removed signal: when the array has
finite endpoints `x` (first) and `y` (last), the drift-removed signal
has value `x` at both the first and the last time sample. -/
theorem driftMapSpec_first_eq_last (dx : ℚ) (n : ℕ) (arr : List PVal) (x y : ℚ)
    (hlen : arr.length = n) (hn : 2 ≤ n) (hdx : 0 < dx)
    (ha : arr.getD 0 none = some x) (hb : arr.getD (n - 1) none = some y) :
    (driftMapSpec (sigTimeOf dx n) arr).getD 0 none = some x ∧
    (driftMapSpec (sigTimeOf dx n) arr).getD (n - 1) none = some x := by
  have h0n : 0 < arr.length := by omega
  have hlast_n : n - 1 < arr.length := by omega
  have ht0 : (sigTimeOf dx n).getD 0 0 = 0 := sigTimeOf_head dx n (by omega)
  have htlast : (sigTimeOf dx n).getD ((sigTimeOf dx n).length - 1) 0 = dx * ((n - 1 : ℕ) : ℚ) := by
    rw [length_sigTimeOf]
    exact sigTimeOf_getD dx n (n - 1) (by omega)
  have hti : (sigTimeOf dx n).getD (n - 1) 0 = dx * ((n - 1 : ℕ) : ℚ) :=
    sigTimeOf_getD dx n (n - 1) (by omega)
  have h1 : (1 : ℚ) ≤ ((n - 1 : ℕ) : ℚ) := by
    exact_mod_cast Nat.one_le_iff_ne_zero.mpr (by omega)
  have hT : dx * ((n - 1 : ℕ) : ℚ) ≠ 0 :=
    ne_of_gt (mul_pos hdx (lt_of_lt_of_le one_pos h1))
  constructor
  · rw [driftMapSpec_getD _ arr 0 h0n, ha]
    unfold lineTerm
    rw [hlen, hb, ha, htlast, ht0]
    simp only [psub_some_some, pmul_some_some, mul_zero, pdiv_some_some, sub_zero]
    rw [if_neg hT]
    simp
  · rw [driftMapSpec_getD _ arr (n - 1) hlast_n, hb]
    unfold lineTerm
    rw [hlen, hb, ha, htlast, ht0, hti]
    simp only [psub_some_some, pmul_some_some, pdiv_some_some, sub_zero]
    rw [if_neg hT]
    rw [mul_div_cancel_right₀ _ hT]
    simp [sub_sub_cancel]

theorem length_driftInput (base : List ℚ) (m c dx : ℚ) :
    (driftInput base m c dx).length = base.length := by
  rw [driftInput, List.length_map, List.length_range]

theorem driftInput_getD (base : List ℚ) (m c dx : ℚ) (i : ℕ) (h : i < base.length) :
    (driftInput base m c dx).getD i none =
      some (base.getD i 0 + (m * (dx * (i : ℚ)) + c)) := by
  rw [driftInput, List.getD_eq_getElem?_getD, List.getElem?_map, List.getElem?_range h]
  rfl

/-- C8: for every raw signal with at least two samples and positive
sample spacing, with an exact linear drift `m*t + c` added, the
linear-drift-removal step of `CleanUp` produces a signal whose value at
the first time sample equals its value at the last time sample, exactly
over exact arithmetic, for every `m` and `c`. -/
theorem claim_C8_drift_removal_first_eq_last (base : List ℚ) (m c dx : ℚ)
    (hn : 2 ≤ base.length) (hdx : 0 < dx) :
    (driftLoop (sigTimeOf dx base.length) (driftInput base m c dx)).getD 0 none =
    (driftLoop (sigTimeOf dx base.length) (driftInput base m c dx)).getD
      (base.length - 1) none := by
  have hlen : (driftInput base m c dx).length = base.length := length_driftInput base m c dx
  have heq := driftLoop_eq_driftMapSpec (sigTimeOf dx base.length) (driftInput base m c dx)
    (sigTimeOf_head dx base.length (by omega))
    (sigTimeOf_den_ne dx base.length hn hdx)
  rw [heq]
  have ha := driftInput_getD base m c dx 0 (by omega)
  have hb := driftInput_getD base m c dx (base.length - 1) (by omega)
  obtain ⟨e1, e2⟩ := driftMapSpec_first_eq_last dx base.length (driftInput base m c dx)
    _ _ hlen hn hdx ha hb
  rw [e1, e2]

/-- Witness for C8 at the concrete input `base = [1, 2]`, `m = 3`,
`c = 4`, `dx = 1`. -/
theorem claim_C8_witness :
    2 ≤ ([1, 2] : List ℚ).length ∧ (0 : ℚ) < 1 ∧
    (driftLoop (sigTimeOf 1 ([1, 2] : List ℚ).length) (driftInput [1, 2] 3 4 1)).getD 0 none =
    (driftLoop (sigTimeOf 1 ([1, 2] : List ℚ).length) (driftInput [1, 2] 3 4 1)).getD
      (([1, 2] : List ℚ).length - 1) none :=
  ⟨by decide, by norm_num,
   claim_C8_drift_removal_first_eq_last [1, 2] 3 4 1 (by decide) (by norm_num)⟩

/-- C10: for every input with at least two samples and positive sample
spacing, the in-place drift-removal loop of `CleanUp` — which reads the
endpoint values `offSig[0]` and `offSig[-1]` from the same array it is
mutating — computes the same output as the non-aliasing definition
`cleaned[i] = offset[i] - (offset[-1] - offset[0]) * time[i] / (time[-1] - time[0])`
with the endpoints fixed to their pre-loop values. -/
theorem claim_C10_driftLoop_alias_free (arr : List PVal) (dx : ℚ)
    (hn : 2 ≤ arr.length) (hdx : 0 < dx) :
    driftLoop (sigTimeOf dx arr.length) arr = driftMapSpec (sigTimeOf dx arr.length) arr :=
  driftLoop_eq_driftMapSpec _ _ (sigTimeOf_head dx arr.length (by omega))
    (sigTimeOf_den_ne dx arr.length hn hdx)

/-- Witness for C10 at the concrete array `[some 3, some 4]`, `dx = 1`. -/
theorem claim_C10_witness :
    2 ≤ ([some 3, some 4] : List PVal).length ∧ (0 : ℚ) < 1 ∧
    driftLoop (sigTimeOf 1 ([some 3, some 4] : List PVal).length) [some 3, some 4] =
      driftMapSpec (sigTimeOf 1 ([some 3, some 4] : List PVal).length) [some 3, some 4] :=
  ⟨by decide, by norm_num,
   claim_C10_driftLoop_alias_free [some 3, some 4] 1 (by decide) (by norm_num)⟩

/-! ### Claims about error handling and parsing -/

/-- C1 counterexample: a channel whose calibration entry is absent from
the loaded calibration mapping does NOT get the empty sentinel — the
uncaught `KeyError` aborts the whole flux-loop group.  Here `CFL01` has
good raw data but no calibration entry; processing stops with
`KeyError('CFL01')` and the sibling `CFL02` is never processed, refuting
the claimed sentinel-and-continue behaviour. -/
theorem claim_C1_counterexample :
    ProcGroupFL (fun _ => none)
      [("CFL01", .wave 1 [1, 2, 3]), ("CFL02", .wave 1 [4, 5, 6])] =
      .error (.keyError "CFL01") := by
  with_unfolding_all rfl

/-- C1 (amended): missing raw data (the sentinel, which makes `CleanUp`
raise `TypeError`) yields the empty `CalibratedChannel` and processing
of the siblings continues, in both `ProcFL` and `ProcBdot`; but a
channel whose conditioning succeeds while its calibration entry is
absent raises an uncaught `KeyError` that aborts the group. -/
theorem claim_C1_missing_cal_aborts_group (calFile : CalDict) (sig sig2 : String)
    (raw : RawSig) (rest : List (String × RawSig)) (p : List PVal × List ℚ) (na : ℚ)
    (hmiss : calFile sig = none) (hok : CleanUp raw true = .ok p)
    (hna : BdotNA sig = some na) :
    ProcGroupFL calFile ((sig2, RawSig.sentinel) :: rest) =
      (ProcGroupFL calFile rest).map (fun rs => (sig2, (([], []) : CalChan)) :: rs) ∧
    ProcGroupFL calFile ((sig, raw) :: rest) = .error (.keyError sig) ∧
    ProcGroupBdot calFile ((sig2, RawSig.sentinel) :: rest) =
      (ProcGroupBdot calFile rest).map (fun rs => (sig2, (([], []) : CalChan)) :: rs) ∧
    ProcGroupBdot calFile ((sig, raw) :: rest) = .error (.keyError sig) := by
  obtain ⟨d, t⟩ := p
  refine ⟨?_, ?_, ?_, ?_⟩
  · have hch : ProcFLchan calFile sig2 RawSig.sentinel = .ok ([], []) := rfl
    simp only [ProcGroupFL, hch]
    cases ProcGroupFL calFile rest <;> rfl
  · simp only [ProcGroupFL, ProcFLchan, hok, hmiss]
  · have hch : ProcBdotChan calFile sig2 RawSig.sentinel = .ok ([], []) := rfl
    simp only [ProcGroupBdot, hch]
    cases ProcGroupBdot calFile rest <;> rfl
  · simp only [ProcGroupBdot, ProcBdotChan, hok, hna, hmiss]

/-- Witness for C1 (amended) at `sig = "PDX01"` (present in the
geometric-factor table), an empty calibration dictionary, and raw data
`dx = 1`, `samples = [1, 2]`. -/
theorem claim_C1_witness :
    (fun (_ : String) => (none : Option (ℚ × String))) "PDX01" = none ∧
    CleanUp (.wave 1 [1, 2]) true = .ok ([none, none], [0, 1]) ∧
    BdotNA "PDX01" = some 31.40986856 ∧
    (ProcGroupFL (fun _ => none) [("CFL02", RawSig.sentinel)] =
      (ProcGroupFL (fun _ => none) ([] : List (String × RawSig))).map
        (fun rs => ("CFL02", (([], []) : CalChan)) :: rs) ∧
     ProcGroupFL (fun _ => none) [("PDX01", .wave 1 [1, 2])] =
       .error (.keyError "PDX01") ∧
     ProcGroupBdot (fun _ => none) [("CFL02", RawSig.sentinel)] =
      (ProcGroupBdot (fun _ => none) ([] : List (String × RawSig))).map
        (fun rs => ("CFL02", (([], []) : CalChan)) :: rs) ∧
     ProcGroupBdot (fun _ => none) [("PDX01", .wave 1 [1, 2])] =
       .error (.keyError "PDX01")) :=
  ⟨rfl, by with_unfolding_all rfl, by with_unfolding_all rfl,
   claim_C1_missing_cal_aborts_group (fun _ => none) "PDX01" "CFL02" (.wave 1 [1, 2])
     [] ([none, none], [0, 1]) 31.40986856 rfl (by with_unfolding_all rfl)
     (by with_unfolding_all rfl)⟩

/-- C2: the code has no `InsufficientData` check at all.  Evaluating
`CleanUp` at the three degenerate inputs of the claim shows: the empty
sentinel raises a bare `TypeError` (not a checked, reported error), an
input with no sample in the baseline window returns an all-NaN result
as a success, and a single-sample record (`time[-1] == time[0]`)
likewise silently returns NaN garbage. -/
theorem claim_C2_no_insufficient_data_check :
    CleanUp .sentinel false = .error .typeError ∧
    CleanUp (.wave (1/100) [1, 2, 3]) false =
      .ok ([none, none, none], [0, 1/100, 1/50]) ∧
    CleanUp (.wave (1/1000000) [7]) false = .ok ([none], [0]) := by
  refine ⟨rfl, ?_, ?_⟩ <;> with_unfolding_all rfl

/-- C3: for `{sampleSpacing: 1.0, samples: [5,5,5,5,5]}` the conditioned
value is NOT `[0,0,0,0,0]`: the baseline window test is
`(sigTime > 0.0) & (sigTime < 0.001)`, a strict inequality that
excludes the sample at time 0, so no sample lies in the window, the
baseline mean is `np.mean` of an empty selection (NaN), and the whole
output is NaN — with and without integration. -/
theorem claim_C3_constant_signal_yields_nan :
    CleanUp (.wave 1 [5, 5, 5, 5, 5]) false =
      .ok ([none, none, none, none, none], [0, 1, 2, 3, 4]) ∧
    CleanUp (.wave 1 [5, 5, 5, 5, 5]) true =
      .ok ([none, none, none, none, none], [0, 1, 2, 3, 4]) := by
  constructor <;> with_unfolding_all rfl

/-- C4 counterexample: the calibration mapping parsed from the crafted
block is not `{CFL01: (2.5, "V")}` — the unit field is the LAST
whitespace-separated token of the offset-3 line `"V 3.14"`, namely
`"3.14"`, not its first token `"V"`. -/
theorem claim_C4_counterexample :
    ¬ (LoadCalData calTestLines = .ok [("CFL01", 5/2, "V")]) := by
  with_unfolding_all decide

/-- C4 (amended): parsing the 64-line header followed by the block
`["[CFL01]", x, x, "V 3.14", "scale 2.5", x, x]` yields exactly the
mapping `{CFL01: (2.5, "3.14")}`: the scale factor is the last token of
the offset-4 line, and the unit string is the last token of the
offset-3 line. -/
theorem claim_C4_parse_block :
    LoadCalData calTestLines = .ok [("CFL01", 5/2, "3.14")] := by
  with_unfolding_all rfl

/-- C5: the predeclared channel enumerations are NOT pairwise disjoint
and not duplicate-free: `CTor1`–`CTor6` appear in both `FluxLoops` and
`BDots`, and `CFL04`, `CFL05` each appear twice inside `FluxLoops`
(where `CFL14`, `CFL15` were plainly intended — both are absent). -/
theorem claim_C5_enumerations_overlap :
    ("CTor1" ∈ FluxLoops ∧ "CTor1" ∈ BDots) ∧
    FluxLoops.count "CFL04" = 2 ∧ FluxLoops.count "CFL05" = 2 ∧
    "CFL14" ∉ FluxLoops ∧ "CFL15" ∉ FluxLoops := by
  decide

/-- C6 counterexample: when the `PlasmaRogB.ibw` raw file is absent,
`IgorLoad` returns the empty sentinel, but `CalcIp` has no exception
handler: `CleanUp` raises `TypeError`, which escapes and aborts the
whole shot (`main` runs `CalcIp` before any group processing), refuting
the claim that a missing raw file never aborts the pipeline. -/
theorem claim_C6_counterexample :
    mainPipeline (fun _ => none) (fun _ => some (1, "V")) = .error .typeError := by
  with_unfolding_all rfl

/-- C6 (amended): an absent raw waveform file is non-fatal for the
flux-loop (and B-dot) channels — the loader returns the empty-sample
sentinel and the group loop emits the empty `CalibratedChannel` and
continues — but for the plasma-current channel, `CalcIp` has no
handler, so the `TypeError` raised on the sentinel aborts the shot. -/
theorem claim_C6_sentinel_continues_except_calcip :
    IgorLoad none = RawSig.sentinel ∧
    (∀ (calFile : CalDict) (sig : String) (rest : List (String × RawSig)),
      ProcGroupFL calFile ((sig, IgorLoad none) :: rest) =
        (ProcGroupFL calFile rest).map (fun rs => (sig, (([], []) : CalChan)) :: rs)) ∧
    (∀ (calFile : CalDict) (sig : String) (rest : List (String × RawSig)),
      ProcGroupBdot calFile ((sig, IgorLoad none) :: rest) =
        (ProcGroupBdot calFile rest).map (fun rs => (sig, (([], []) : CalChan)) :: rs)) ∧
    (∀ calFile : CalDict, CalcIp calFile (IgorLoad none) = .error .typeError) := by
  refine ⟨rfl, ?_, ?_, fun _ => rfl⟩
  · intro calFile sig rest
    have hch : ProcFLchan calFile sig (IgorLoad none) = .ok ([], []) := rfl
    simp only [ProcGroupFL, hch]
    cases ProcGroupFL calFile rest <;> rfl
  · intro calFile sig rest
    have hch : ProcBdotChan calFile sig (IgorLoad none) = .ok ([], []) := rfl
    simp only [ProcGroupBdot, hch]
    cases ProcGroupBdot calFile rest <;> rfl

/-- C7 counterexample: the shot number 999 has fewer than 6 decimal
digits, yet the padding block leaves it untouched (only lengths 4 and 5
are padded), so the padded string is `"999"` of length 3, not 6. -/
theorem claim_C7_counterexample :
    (toString (999 : ℕ)).length < 6 ∧ shotStr 999 = "999" ∧
    (shotStr 999).length ≠ 6 := by
  decide

/-- C7 (amended): for every shot number with exactly 4 or 5 decimal
digits, the padding block left-pads with zeros to exactly 6 digits, and
the first directory component is the first two characters of the padded
string followed by `"0000"`; shot numbers with fewer than 4 digits are
left unpadded. -/
theorem claim_C7_pad_4_or_5_digits (n : ℕ)
    (h : (toString n).length = 4 ∨ (toString n).length = 5) :
    (shotStr n).length = 6 ∧ f1Str n = pytake (shotStr n) 2 ++ "0000" := by
  refine ⟨?_, rfl⟩
  rcases h with h | h
  · rw [shotStr, if_pos h, String.length_append, h]; decide
  · rw [shotStr, if_neg (by omega), if_pos h, String.length_append, h]; decide

/-- Witness for C7 (amended) at the 4-digit shot number 1234. -/
theorem claim_C7_witness :
    ((toString (1234 : ℕ)).length = 4 ∨ (toString (1234 : ℕ)).length = 5) ∧
    ((shotStr 1234).length = 6 ∧ f1Str 1234 = pytake (shotStr 1234) 2 ++ "0000") :=
  ⟨Or.inl (by decide), claim_C7_pad_4_or_5_digits 1234 (Or.inl (by decide))⟩

/-- C9: every channel of the declared `BDots` enumeration has an entry
in the `BdotNA` geometric-factor table (so the lookup-failure branch is
unreachable for declared field-coil channels); conversely, a channel
absent from the table makes `ProcBdot` fail with a `KeyError` (a
not-found error) instead of silently defaulting the factor to 1. -/
theorem claim_C9_bdotNA_covers_enumeration (calFile : CalDict) (sig : String)
    (raw : RawSig) (p : List PVal × List ℚ)
    (hna : BdotNA sig = none) (hok : CleanUp raw true = .ok p) :
    (∀ s ∈ BDots, (BdotNA s).isSome = true) ∧
    ProcBdotChan calFile sig raw = .error (.keyError sig) := by
  obtain ⟨d, t⟩ := p
  constructor
  · have hall : BDots.all (fun s => (BdotNA s).isSome) = true := by
      with_unfolding_all rfl
    intro s hs
    exact List.all_eq_true.mp hall s hs
  · simp only [ProcBdotChan, hok, hna]

/-- Witness for C9 at the undeclared channel name `"FOO"` with healthy
raw data. -/
theorem claim_C9_witness :
    BdotNA "FOO" = none ∧
    CleanUp (.wave 1 [1, 2]) true = .ok ([none, none], [0, 1]) ∧
    ((∀ s ∈ BDots, (BdotNA s).isSome = true) ∧
     ProcBdotChan (fun _ => some (1, "V")) "FOO" (.wave 1 [1, 2]) =
       .error (.keyError "FOO")) :=
  ⟨by with_unfolding_all rfl, by with_unfolding_all rfl,
   claim_C9_bdotNA_covers_enumeration (fun _ => some (1, "V")) "FOO" (.wave 1 [1, 2])
     ([none, none], [0, 1]) (by with_unfolding_all rfl) (by with_unfolding_all rfl)⟩

end ShotLoader
